import Mathlib

/-!
Verification development for the cable-subscription billing portal:
a serverless purchase handler (Deno edge function over the Supabase SDK)
and a browser single-page app that authenticates users and gates routes
by role.

The handler is embedded as a pure function from a request plus a backend
snapshot (lookup oracles and outcome flags for the remote calls) to an
HTTP response together with explicit effect traces: the `add_to_balance`
RPC calls it issued and the transaction rows it attempted to insert and
actually appended.  The client components (`ProtectedRoute`, the auth
context value) are embedded as pure render functions over the context
state, and the 3-second loading timer as a pure state-transition
function.
-/

/-! ## Data model -/

/-- A row of the joined `cable_providers` table, as selected by the
handler (`code` and `name` are the fields it reads). -/
structure CableProvider where
  code : String
  name : String
deriving Repr, DecidableEq

/-- A row of the `cable_packages` catalog table together with its joined
provider, as returned by the package lookup. -/
structure PackageData where
  name : String
  amount : Int
  duration : String
  cable_providers : CableProvider
deriving Repr, DecidableEq

/-- A row of the `profiles` table; the handler reads only the balance. -/
structure Profile where
  balance : Int
deriving Repr, DecidableEq

/-- The authenticated user returned by `supabase.auth.getUser`. -/
structure AuthUser where
  id : String
deriving Repr, DecidableEq

/-- The free-form `details` payload recorded with a transaction.  The
success path stores a `duration` and a `transaction_date` and no
`error`; the provider-failure path stores an `error` and neither of the
other two, hence the `Option` fields. -/
structure TxDetails where
  smart_card_number : String
  customer_name : String
  provider_name : String
  package_name : String
  duration : Option String
  transaction_date : Option String
  error : Option String
deriving Repr, DecidableEq

/-- A row of the `transactions` table as built by the handler's two
insert call sites. -/
structure TransactionRow where
  user_id : String
  type : String
  amount : Int
  status : String
  reference : String
  provider : String
  recipient : String
  details : TxDetails
deriving Repr, DecidableEq

/-! ## HTTP layer -/

/-- The response bodies the handler can produce, kept structured so that
the status/error-string pairing of each branch is visible. -/
inductive RespBody where
  | empty : RespBody
  | errMsg (error : String) : RespBody
  | errWithDetails (error : String) (details : String) : RespBody
  | successData (message : String) (amount : Int) (smartcard : String)
      (customer : String) (provider : String) (pkg : String)
      (duration : String) (reference : String) (date : String) : RespBody
  | failureMsg (error : String) : RespBody
deriving Repr, DecidableEq

/-- The `corsHeaders` constant spread into every response. -/
def corsHeaders : List (String × String) :=
  [("Access-Control-Allow-Origin", "*"),
   ("Access-Control-Allow-Headers", "authorization, x-client-info, apikey, content-type")]

structure HttpResponse where
  status : Nat
  body : RespBody
  headers : List (String × String)
deriving Repr, DecidableEq

/-- A JSON response: `{ ...corsHeaders, 'Content-Type': 'application/json' }`. -/
def jsonResponse (b : RespBody) (status : Nat) : HttpResponse :=
  { status := status, body := b,
    headers := corsHeaders ++ [("Content-Type", "application/json")] }

/-! ## Request and backend snapshot -/

/-- The incoming request: method, `Authorization` header, and the JSON
body fields the handler destructures.  `jsonOk` is false when
`req.json()` throws (malformed body), which lands in the `catch`. -/
structure PurchaseRequest where
  method : String
  authHeader : Option String
  jsonOk : Bool
  packageId : Option String
  smartCardNumber : Option String
  customerName : Option String
  reference : Option String

/-- A snapshot of the backend as seen by one handler invocation: the
lookup oracles for the three reads, the mock provider outcome
(`Math.random() > 0.1`), and error flags for the RPC and the two insert
call sites.  Nothing carries state between calls — in particular no
lock or version token links the profile read to the later RPC. -/
structure Backend where
  getUser : String → Option AuthUser
  getPackage : String → Option PackageData
  getProfile : String → Option Profile
  providerSuccess : Bool
  addToBalanceError : Bool
  insertErrorOnSuccessPath : Bool
  insertErrorOnFailedPath : Bool
  now : String
  jsonErrMsg : String

/-- The handler's observable outcome: the response plus effect traces.
`debits` records every `add_to_balance` RPC call issued, as the
`(user_uuid, amount_to_add)` pair it carried.  `attemptedInserts` records
every row passed to `.insert`, `appendedInserts` those whose insert did
not error.  `updatedRows`/`deletedRows` trace update/delete operations
on the transactions table; the handler issues none. -/
structure HandlerOutput where
  resp : HttpResponse
  debits : List (String × Int)
  attemptedInserts : List TransactionRow
  appendedInserts : List TransactionRow
  updatedRows : List TransactionRow
  deletedRows : List TransactionRow

/-- An early-exit outcome: a response and no backend writes. -/
def noEffects (r : HttpResponse) : HandlerOutput :=
  { resp := r, debits := [], attemptedInserts := [], appendedInserts := [],
    updatedRows := [], deletedRows := [] }

/-- JavaScript falsiness of a destructured JSON string field: absent
(`undefined`) or the empty string. -/
def falsy : Option String → Bool
  | none => true
  | some s => s.isEmpty

/-- `customerName || "Unknown Customer"`. -/
def orUnknownCustomer : Option String → String
  | none => "Unknown Customer"
  | some s => if s.isEmpty then "Unknown Customer" else s

/-- The string value of a body field (empty when absent); used only
after the falsiness check has ruled out absent/empty. -/
def getStr : Option String → String
  | none => ""
  | some s => s

/-- JavaScript `String.prototype.replace` with a string pattern removes
only the first occurrence; `authHeader.replace('Bearer ', '')`. -/
def replaceFirst (s pat : String) : String :=
  match s.splitOn pat with
  | [] => s
  | [x] => x
  | x :: y :: rest => x ++ String.intercalate pat (y :: rest)

/-! ## The purchase handler -/

/-- The serve handler of the cable-subscription edge function, embedded
line by line: OPTIONS preflight, auth header check, token verification,
body validation, package lookup, profile lookup, balance check, then
either the debit-insert-respond success path or the failed-insert
failure path.  A `req.json()` throw is caught by the surrounding
`try/catch` and produces the 500 internal-error response. -/
def handler (req : PurchaseRequest) (env : Backend) : HandlerOutput :=
  if req.method = "OPTIONS" then
    noEffects { status := 200, body := .empty, headers := corsHeaders }
  else
    match req.authHeader with
    | none => noEffects (jsonResponse (.errMsg "No authorization header provided") 401)
    | some authHeader =>
      match env.getUser (replaceFirst authHeader "Bearer ") with
      | none => noEffects (jsonResponse (.errMsg "Invalid token") 401)
      | some user =>
        if req.jsonOk = false then
          noEffects (jsonResponse (.errWithDetails "Internal server error" env.jsonErrMsg) 500)
        else if falsy req.packageId || falsy req.smartCardNumber || falsy req.reference then
          noEffects (jsonResponse (.errMsg "Missing required parameters") 400)
        else
          match env.getPackage (getStr req.packageId) with
          | none => noEffects (jsonResponse (.errMsg "Cable package not found") 404)
          | some packageData =>
            match env.getProfile user.id with
            | none => noEffects (jsonResponse (.errMsg "User profile not found") 404)
            | some profile =>
              if profile.balance < packageData.amount then
                noEffects (jsonResponse (.errMsg "Insufficient balance") 400)
              else if env.providerSuccess then
                let debit := (user.id, -packageData.amount)
                if env.addToBalanceError then
                  { resp := jsonResponse (.errMsg "Failed to update user balance") 500,
                    debits := [debit], attemptedInserts := [], appendedInserts := [],
                    updatedRows := [], deletedRows := [] }
                else
                  let row : TransactionRow :=
                    { user_id := user.id, type := "cable",
                      amount := packageData.amount, status := "success",
                      reference := getStr req.reference,
                      provider := packageData.cable_providers.code,
                      recipient := getStr req.smartCardNumber,
                      details :=
                        { smart_card_number := getStr req.smartCardNumber,
                          customer_name := orUnknownCustomer req.customerName,
                          provider_name := packageData.cable_providers.name,
                          package_name := packageData.name,
                          duration := some packageData.duration,
                          transaction_date := some env.now,
                          error := none } }
                  if env.insertErrorOnSuccessPath then
                    { resp := jsonResponse (.errMsg "Failed to record transaction") 500,
                      debits := [debit], attemptedInserts := [row], appendedInserts := [],
                      updatedRows := [], deletedRows := [] }
                  else
                    { resp := jsonResponse
                        (.successData (packageData.name ++ " subscription successful")
                          packageData.amount (getStr req.smartCardNumber)
                          (orUnknownCustomer req.customerName)
                          packageData.cable_providers.name packageData.name
                          packageData.duration (getStr req.reference) env.now) 200,
                      debits := [debit], attemptedInserts := [row], appendedInserts := [row],
                      updatedRows := [], deletedRows := [] }
              else
                let row : TransactionRow :=
                  { user_id := user.id, type := "cable",
                    amount := packageData.amount, status := "failed",
                    reference := getStr req.reference,
                    provider := packageData.cable_providers.code,
                    recipient := getStr req.smartCardNumber,
                    details :=
                      { smart_card_number := getStr req.smartCardNumber,
                        customer_name := orUnknownCustomer req.customerName,
                        provider_name := packageData.cable_providers.name,
                        package_name := packageData.name,
                        duration := none,
                        transaction_date := none,
                        error := some "Service provider API failure" } }
                { resp := jsonResponse (.failureMsg "Service provider API failure") 400,
                  debits := [],
                  attemptedInserts := [row],
                  appendedInserts := if env.insertErrorOnFailedPath then [] else [row],
                  updatedRows := [], deletedRows := [] }

/-! ## Client-side authentication and route gating -/

/-- The user record mirrored into the client session; the route guard
reads only the role (a string cast from the profile row). -/
structure UserView where
  role : String
deriving Repr, DecidableEq

/-- The auth provider's internal state: the mirrored user, whether a
session object is held, and the loading flag. -/
structure AuthProviderState where
  user : Option UserView
  sessionPresent : Bool
  isLoading : Bool
deriving Repr, DecidableEq

/-- The context value exposed to consumers (the fields `ProtectedRoute`
reads). -/
structure AuthContextValue where
  user : Option UserView
  isLoading : Bool
  isAuthenticated : Bool
deriving Repr, DecidableEq

/-- The value the `AuthContext.Provider` supplies:
`isAuthenticated: !!user && !!session`. -/
def authContextValue (s : AuthProviderState) : AuthContextValue :=
  { user := s.user, isLoading := s.isLoading,
    isAuthenticated := s.user.isSome && s.sessionPresent }

/-- What a render of `ProtectedRoute` returns: the loading view (with or
without the manual-refresh affordance), a `Navigate` redirect, or the
child routes (`Outlet`). -/
inductive RenderResult where
  | loadingView (showRefreshAffordance : Bool) : RenderResult
  | navigate (dest : String) : RenderResult
  | outlet : RenderResult
deriving Repr, DecidableEq

/-- Default for the `allowedRoles` prop. -/
def defaultAllowedRoles : List String := ["customer", "admin"]

/-- Default for the `redirectPath` prop. -/
def defaultRedirectPath : String := "/login"

/-- The render body of `ProtectedRoute`: loading view while `isLoading`
(the refresh affordance shown exactly when `loadingTimeExceeded` is
set); redirect to `redirectPath` when `!isAuthenticated || !user`;
redirect to `/unauthorized` when the role is not allowed; otherwise the
`Outlet`. -/
def protectedRoute (allowedRoles : List String) (redirectPath : String)
    (auth : AuthContextValue) (loadingTimeExceeded : Bool) : RenderResult :=
  if auth.isLoading then
    .loadingView loadingTimeExceeded
  else
    match auth.user with
    | none => .navigate redirectPath
    | some u =>
      if auth.isAuthenticated = false then .navigate redirectPath
      else if allowedRoles.contains u.role then .outlet
      else .navigate "/unauthorized"

/-! ## The loading timer of ProtectedRoute -/

/-- The component-local UI state touched by the loading-timeout effect,
over an abstract type `σ` for the in-flight session request the auth
provider owns: the effect can only leave it unchanged. -/
structure RouteUiState (σ : Type) where
  loadingTimeExceeded : Bool
  refreshAttempted : Bool
  sessionRequest : σ

/-- The body of the `setTimeout` callback: `setLoadingTimeExceeded(true)`
and nothing else. -/
def timeoutCallback {σ : Type} (s : RouteUiState σ) : RouteUiState σ :=
  { s with loadingTimeExceeded := true }

/-- The 3000 ms delay passed to `setTimeout`. -/
def loadingTimeoutMs : Nat := 3000

/-- The observable outcome of the loading-timeout effect for one loading
episode: while `isLoading`, a 3000 ms timer is armed whose expiry runs
`timeoutCallback` (so after `elapsedMs` of continuous loading the
callback has run exactly when `loadingTimeoutMs ≤ elapsedMs`; the
cleanup cancels it otherwise); when loading ends the flag is reset to
`false`. -/
def loadingEffect {σ : Type} (isLoading : Bool) (elapsedMs : Nat)
    (s : RouteUiState σ) : RouteUiState σ :=
  if isLoading then
    if loadingTimeoutMs ≤ elapsedMs then timeoutCallback s else s
  else
    { s with loadingTimeExceeded := false }

/-! ## Helper lemmas -/

/-- A body field that is not falsy is present with its string value. -/
theorem falsy_false_eq_some (o : Option String) (h : falsy o = false) :
    o = some (getStr o) := by
  cases o with
  | none => simp [falsy] at h
  | some s => rfl

/-- Shape of the debit trace: either no `add_to_balance` call was issued,
or the run passed every check (auth, body, package, profile, balance,
provider mock) and issued exactly one call debiting the package amount
from the authenticated user. -/
theorem handler_debits_shape (req : PurchaseRequest) (env : Backend) :
    (handler req env).debits = [] ∨
    ∃ (ah : String) (user : AuthUser) (pd : PackageData) (prof : Profile),
      req.authHeader = some ah ∧
      env.getUser (replaceFirst ah "Bearer ") = some user ∧
      req.jsonOk = true ∧
      falsy req.packageId = false ∧
      falsy req.smartCardNumber = false ∧
      falsy req.reference = false ∧
      env.getPackage (getStr req.packageId) = some pd ∧
      env.getProfile user.id = some prof ∧
      pd.amount ≤ prof.balance ∧
      env.providerSuccess = true ∧
      (handler req env).debits = [(user.id, -pd.amount)] := by
  by_cases hm : req.method = "OPTIONS"
  · left; simp [handler, hm, noEffects]
  · cases hah : req.authHeader with
    | none => left; simp [handler, hm, hah, noEffects]
    | some ah =>
      cases hu : env.getUser (replaceFirst ah "Bearer ") with
      | none => left; simp [handler, hm, hah, hu, noEffects]
      | some user =>
        by_cases hjson : req.jsonOk = false
        · left; simp [handler, hm, hah, hu, hjson, noEffects]
        · by_cases hbody :
            (falsy req.packageId || falsy req.smartCardNumber || falsy req.reference) = true
          · left; simp [handler, hm, hah, hu, hjson, hbody, noEffects]
          · cases hpkg : env.getPackage (getStr req.packageId) with
            | none => left; simp [handler, hm, hah, hu, hjson, hbody, hpkg, noEffects]
            | some pd =>
              cases hprof : env.getProfile user.id with
              | none => left; simp [handler, hm, hah, hu, hjson, hbody, hpkg, hprof, noEffects]
              | some prof =>
                by_cases hbal : prof.balance < pd.amount
                · left
                  simp [handler, hm, hah, hu, hjson, hbody, hpkg, hprof, hbal, noEffects]
                · cases hps : env.providerSuccess with
                  | false =>
                    left
                    simp [handler, hm, hah, hu, hjson, hbody, hpkg, hprof, hbal, hps, noEffects]
                  | true =>
                    right
                    obtain ⟨⟨h1, h2⟩, h3⟩ :
                        (falsy req.packageId = false ∧ falsy req.smartCardNumber = false) ∧
                          falsy req.reference = false := by
                      simpa [not_or] using hbody
                    refine ⟨ah, user, pd, prof, rfl, hu, ?_, h1, h2, h3, rfl, hprof,
                      le_of_not_lt hbal, rfl, ?_⟩
                    · simpa using hjson
                    · by_cases hrpc : env.addToBalanceError
                      · simp [handler, hm, hah, hu, hjson, hbody, hpkg, hprof, hbal, hps, hrpc]
                      · by_cases hins : env.insertErrorOnSuccessPath
                        · simp [handler, hm, hah, hu, hjson, hbody, hpkg, hprof, hbal, hps,
                            hrpc, hins]
                        · simp [handler, hm, hah, hu, hjson, hbody, hpkg, hprof, hbal, hps,
                            hrpc, hins]

/-! ## Concrete fixtures for witnesses -/

def demoProvider : CableProvider := { code := "DSTV", name := "DStv" }

def demoPackage : PackageData :=
  { name := "Compact", amount := 9000, duration := "1 month",
    cable_providers := demoProvider }

def demoUser : AuthUser := { id := "user-1" }

/-- A backend snapshot whose lookups always succeed, parametrized by the
profile balance, the mock provider outcome, and the three error flags. -/
def demoBackend (bal : Int) (ps rpcErr insErrS insErrF : Bool) : Backend :=
  { getUser := fun _ => some demoUser,
    getPackage := fun _ => some demoPackage,
    getProfile := fun _ => some { balance := bal },
    providerSuccess := ps,
    addToBalanceError := rpcErr,
    insertErrorOnSuccessPath := insErrS,
    insertErrorOnFailedPath := insErrF,
    now := "2026-01-01T00:00:00.000Z",
    jsonErrMsg := "Unexpected end of JSON input" }

def demoRequest : PurchaseRequest :=
  { method := "POST", authHeader := some "Bearer tok", jsonOk := true,
    packageId := some "pkg-1", smartCardNumber := some "1234567890",
    customerName := none, reference := some "ref-001" }

/-! ## Claims -/

/-- Claim C1: a purchase request that passes authentication, body
validation, and the package and profile lookups but whose balance is
strictly below the package amount gets status 400 with error
`Insufficient balance`, no `add_to_balance` call and no transaction
insert; and any run that does issue a debit had looked up a balance at
least the package amount. -/
theorem C1_insufficient_balance_guard (req : PurchaseRequest) (env : Backend)
    (ah : String) (user : AuthUser) (pd : PackageData) (prof : Profile)
    (hm : req.method ≠ "OPTIONS")
    (hah : req.authHeader = some ah)
    (hu : env.getUser (replaceFirst ah "Bearer ") = some user)
    (hjson : req.jsonOk = true)
    (hpid : falsy req.packageId = false)
    (hsc : falsy req.smartCardNumber = false)
    (href : falsy req.reference = false)
    (hpkg : env.getPackage (getStr req.packageId) = some pd)
    (hprof : env.getProfile user.id = some prof)
    (hbal : prof.balance < pd.amount) :
    (handler req env).resp.status = 400 ∧
    (handler req env).resp.body = RespBody.errMsg "Insufficient balance" ∧
    (handler req env).debits = [] ∧
    (handler req env).attemptedInserts = [] ∧
    ∀ (req2 : PurchaseRequest) (env2 : Backend),
      (handler req2 env2).debits ≠ [] →
      ∃ (user2 : AuthUser) (pd2 : PackageData) (prof2 : Profile),
        env2.getPackage (getStr req2.packageId) = some pd2 ∧
        env2.getProfile user2.id = some prof2 ∧
        pd2.amount ≤ prof2.balance := by
  have hred : handler req env =
      noEffects (jsonResponse (.errMsg "Insufficient balance") 400) := by
    simp [handler, hm, hah, hu, hjson, hpid, hsc, href, hpkg, hprof, hbal]
  refine ⟨by rw [hred]; rfl, by rw [hred]; rfl, by rw [hred]; rfl, by rw [hred]; rfl, ?_⟩
  intro req2 env2 hne
  rcases handler_debits_shape req2 env2 with h |
    ⟨ah2, user2, pd2, prof2, _, _, _, _, _, _, hpkg2, hprof2, hbal2, _, _⟩
  · exact absurd h hne
  · exact ⟨user2, pd2, prof2, hpkg2, hprof2, hbal2⟩

/-- Witness for C1: balance 100 against a 9000 package. -/
theorem C1_insufficient_balance_guard_witness :
    (handler demoRequest (demoBackend 100 true false false false)).resp.status = 400 ∧
    (handler demoRequest (demoBackend 100 true false false false)).debits = [] ∧
    (handler demoRequest (demoBackend 100 true false false false)).attemptedInserts = [] := by
  have h := C1_insufficient_balance_guard demoRequest (demoBackend 100 true false false false)
    "Bearer tok" demoUser demoPackage { balance := 100 }
    (by decide) rfl rfl rfl (by decide) (by decide) (by decide) rfl rfl (by decide)
  exact ⟨h.1, h.2.2.1, h.2.2.2.1⟩

/-- Claim C9: any issued debit carries exactly the catalog amount of the
requested packageId, and with the same backend snapshot two runs that
agree on packageId debit the same amount whatever their other body
fields are. -/
theorem C9_debit_amount_from_catalog (req : PurchaseRequest) (env : Backend)
    (p : String × Int) (hp : p ∈ (handler req env).debits) :
    (∃ pd : PackageData,
      req.packageId = some (getStr req.packageId) ∧
      env.getPackage (getStr req.packageId) = some pd ∧
      p.2 = -pd.amount) ∧
    ∀ (req2 : PurchaseRequest) (p2 : String × Int),
      p2 ∈ (handler req2 env).debits →
      req2.packageId = req.packageId →
      p2.2 = p.2 := by
  rcases handler_debits_shape req env with h |
    ⟨ah, user, pd, prof, _, _, _, hpid, _, _, hpkg, _, _, _, hdeb⟩
  · rw [h] at hp; simp at hp
  · rw [hdeb] at hp
    simp only [List.mem_singleton] at hp
    constructor
    · exact ⟨pd, falsy_false_eq_some _ hpid, hpkg, by rw [hp]⟩
    · intro req2 p2 hp2 hsame
      rcases handler_debits_shape req2 env with h2 |
        ⟨ah2, user2, pd2, prof2, _, _, _, _, _, _, hpkg2, _, _, _, hdeb2⟩
      · rw [h2] at hp2; simp at hp2
      · rw [hdeb2] at hp2
        simp only [List.mem_singleton] at hp2
        have hgs : getStr req2.packageId = getStr req.packageId := by rw [hsame]
        rw [hgs, hpkg] at hpkg2
        have hpd : pd = pd2 := by injection hpkg2
        rw [hp2, hp, ← hpd]

/-- Witness for C9: the debit issued for the demo package carries its
catalog amount 9000. -/
theorem C9_debit_amount_from_catalog_witness :
    ∃ pd : PackageData,
      demoRequest.packageId = some (getStr demoRequest.packageId) ∧
      (demoBackend 20000 true false false false).getPackage (getStr demoRequest.packageId) =
        some pd ∧
      (("user-1", (-9000 : Int)) : String × Int).2 = -pd.amount :=
  (C9_debit_amount_from_catalog demoRequest (demoBackend 20000 true false false false)
    ("user-1", -9000) (by decide)).1

/-- On the fully validated provider-success path the handler issues
exactly one `add_to_balance` call for minus the package amount,
whatever the RPC and insert error flags are. -/
theorem handler_success_path_debit (req : PurchaseRequest) (env : Backend)
    (ah : String) (user : AuthUser) (pd : PackageData) (prof : Profile)
    (hm : req.method ≠ "OPTIONS")
    (hah : req.authHeader = some ah)
    (hu : env.getUser (replaceFirst ah "Bearer ") = some user)
    (hjson : req.jsonOk = true)
    (hpid : falsy req.packageId = false)
    (hsc : falsy req.smartCardNumber = false)
    (href : falsy req.reference = false)
    (hpkg : env.getPackage (getStr req.packageId) = some pd)
    (hprof : env.getProfile user.id = some prof)
    (hbal : pd.amount ≤ prof.balance)
    (hps : env.providerSuccess = true) :
    (handler req env).debits = [(user.id, -pd.amount)] := by
  have hnl : ¬ prof.balance < pd.amount := not_lt.mpr hbal
  by_cases hrpc : env.addToBalanceError
  · simp [handler, hm, hah, hu, hjson, hpid, hsc, href, hpkg, hprof, hnl, hps, hrpc]
  · by_cases hins : env.insertErrorOnSuccessPath
    · simp [handler, hm, hah, hu, hjson, hpid, hsc, href, hpkg, hprof, hnl, hps, hrpc, hins]
    · simp [handler, hm, hah, hu, hjson, hpid, hsc, href, hpkg, hprof, hnl, hps, hrpc, hins]

/-- Claim C3: the balance check and the debit are separate backend calls
and a debit carries only the user id and amount — no lock, transaction
or version token — so two requests that both read the same pre-debit
snapshot with amount ≤ balance < 2·amount both pass the check and both
debit, leaving the combined balance negative (double-spend). -/
theorem C3_double_spend_race (req1 req2 : PurchaseRequest) (env : Backend)
    (ah1 ah2 : String) (user : AuthUser) (pd : PackageData) (prof : Profile)
    (hm1 : req1.method ≠ "OPTIONS") (hm2 : req2.method ≠ "OPTIONS")
    (hah1 : req1.authHeader = some ah1) (hah2 : req2.authHeader = some ah2)
    (hu1 : env.getUser (replaceFirst ah1 "Bearer ") = some user)
    (hu2 : env.getUser (replaceFirst ah2 "Bearer ") = some user)
    (hjson1 : req1.jsonOk = true) (hjson2 : req2.jsonOk = true)
    (hpid1 : falsy req1.packageId = false) (hpid2 : falsy req2.packageId = false)
    (hsc1 : falsy req1.smartCardNumber = false) (hsc2 : falsy req2.smartCardNumber = false)
    (href1 : falsy req1.reference = false) (href2 : falsy req2.reference = false)
    (hpkg1 : env.getPackage (getStr req1.packageId) = some pd)
    (hpkg2 : env.getPackage (getStr req2.packageId) = some pd)
    (hprof : env.getProfile user.id = some prof)
    (hbal : pd.amount ≤ prof.balance)
    (hrace : prof.balance < 2 * pd.amount)
    (hps : env.providerSuccess = true) :
    (handler req1 env).debits = [(user.id, -pd.amount)] ∧
    (handler req2 env).debits = [(user.id, -pd.amount)] ∧
    prof.balance + (-pd.amount) + (-pd.amount) < 0 := by
  refine ⟨handler_success_path_debit req1 env ah1 user pd prof hm1 hah1 hu1 hjson1
      hpid1 hsc1 href1 hpkg1 hprof hbal hps,
    handler_success_path_debit req2 env ah2 user pd prof hm2 hah2 hu2 hjson2
      hpid2 hsc2 href2 hpkg2 hprof hbal hps, ?_⟩
  omega

/-- Witness for C3: balance 10000 against two concurrent 9000 purchases. -/
theorem C3_double_spend_race_witness :
    (handler demoRequest (demoBackend 10000 true false false false)).debits =
      [("user-1", (-9000 : Int))] ∧
    (handler demoRequest (demoBackend 10000 true false false false)).debits =
      [("user-1", (-9000 : Int))] ∧
    (10000 : Int) + (-9000) + (-9000) < 0 :=
  C3_double_spend_race demoRequest demoRequest (demoBackend 10000 true false false false)
    "Bearer tok" "Bearer tok" demoUser demoPackage { balance := 10000 }
    (by decide) (by decide) rfl rfl rfl rfl rfl rfl (by decide) (by decide)
    (by decide) (by decide) (by decide) (by decide) rfl rfl rfl
    (by decide) (by decide) rfl

/-- Claim C2: when the debit RPC succeeds and the transaction insert
then errors, the handler returns 500 `Failed to record transaction`,
the debit trace holds exactly the one negative debit (no re-credit was
issued), the insert was attempted exactly once (no retry) and no row
was appended: the ledger has no record of the successful debit. -/
theorem C2_insert_failure_after_debit (req : PurchaseRequest) (env : Backend)
    (ah : String) (user : AuthUser) (pd : PackageData) (prof : Profile)
    (hm : req.method ≠ "OPTIONS")
    (hah : req.authHeader = some ah)
    (hu : env.getUser (replaceFirst ah "Bearer ") = some user)
    (hjson : req.jsonOk = true)
    (hpid : falsy req.packageId = false)
    (hsc : falsy req.smartCardNumber = false)
    (href : falsy req.reference = false)
    (hpkg : env.getPackage (getStr req.packageId) = some pd)
    (hprof : env.getProfile user.id = some prof)
    (hbal : pd.amount ≤ prof.balance)
    (hps : env.providerSuccess = true)
    (hrpc : env.addToBalanceError = false)
    (hins : env.insertErrorOnSuccessPath = true) :
    (handler req env).resp.status = 500 ∧
    (handler req env).resp.body = RespBody.errMsg "Failed to record transaction" ∧
    (handler req env).debits = [(user.id, -pd.amount)] ∧
    (handler req env).attemptedInserts.length = 1 ∧
    (handler req env).appendedInserts = [] := by
  have hnl : ¬ prof.balance < pd.amount := not_lt.mpr hbal
  simp [handler, hm, hah, hu, hjson, hpid, hsc, href, hpkg, hprof, hnl, hps, hrpc, hins,
    jsonResponse]

/-- Witness for C2: debit succeeds, insert errors. -/
theorem C2_insert_failure_after_debit_witness :
    (handler demoRequest (demoBackend 10000 true false true false)).resp.status = 500 ∧
    (handler demoRequest (demoBackend 10000 true false true false)).debits =
      [("user-1", (-9000 : Int))] ∧
    (handler demoRequest (demoBackend 10000 true false true false)).appendedInserts = [] := by
  have h := C2_insert_failure_after_debit demoRequest (demoBackend 10000 true false true false)
    "Bearer tok" demoUser demoPackage { balance := 10000 }
    (by decide) rfl rfl rfl (by decide) (by decide) (by decide) rfl rfl
    (by decide) rfl rfl rfl
  exact ⟨h.1, h.2.2.1, h.2.2.2.2⟩

/-- Claim C5: for an authenticated request, a body whose packageId,
smartCardNumber or reference is falsy gets 400
`Missing required parameters` with no effects; customerName is optional
and, when absent, both the recorded transaction row and the success
response carry `Unknown Customer`. -/
theorem C5_required_params_and_default_customer (req : PurchaseRequest) (env : Backend)
    (ah : String) (user : AuthUser)
    (hm : req.method ≠ "OPTIONS")
    (hah : req.authHeader = some ah)
    (hu : env.getUser (replaceFirst ah "Bearer ") = some user)
    (hjson : req.jsonOk = true) :
    ((falsy req.packageId || falsy req.smartCardNumber || falsy req.reference) = true →
      (handler req env).resp.status = 400 ∧
      (handler req env).resp.body = RespBody.errMsg "Missing required parameters" ∧
      (handler req env).debits = [] ∧
      (handler req env).attemptedInserts = []) ∧
    ∀ (pd : PackageData) (prof : Profile),
      falsy req.packageId = false →
      falsy req.smartCardNumber = false →
      falsy req.reference = false →
      env.getPackage (getStr req.packageId) = some pd →
      env.getProfile user.id = some prof →
      pd.amount ≤ prof.balance →
      env.providerSuccess = true →
      env.addToBalanceError = false →
      env.insertErrorOnSuccessPath = false →
      req.customerName = none →
      (∀ row ∈ (handler req env).attemptedInserts,
        row.details.customer_name = "Unknown Customer") ∧
      (handler req env).resp.body =
        RespBody.successData (pd.name ++ " subscription successful") pd.amount
          (getStr req.smartCardNumber) "Unknown Customer" pd.cable_providers.name
          pd.name pd.duration (getStr req.reference) env.now := by
  constructor
  · intro hbody
    simp [handler, hm, hah, hu, hjson, hbody, jsonResponse, noEffects]
  · intro pd prof hpid hsc href hpkg hprof hbal hps hrpc hins hcust
    have hnl : ¬ prof.balance < pd.amount := not_lt.mpr hbal
    simp [handler, hm, hah, hu, hjson, hpid, hsc, href, hpkg, hprof, hnl, hps, hrpc, hins,
      hcust, orUnknownCustomer, jsonResponse]

/-- Witness for C5 at a request missing its reference. -/
theorem C5_required_params_and_default_customer_witness :
    (handler { demoRequest with reference := none }
        (demoBackend 10000 true false false false)).resp.status = 400 ∧
    (handler { demoRequest with reference := none }
        (demoBackend 10000 true false false false)).resp.body =
      RespBody.errMsg "Missing required parameters" := by
  have h := C5_required_params_and_default_customer
    { demoRequest with reference := none } (demoBackend 10000 true false false false)
    "Bearer tok" demoUser (by decide) rfl rfl rfl
  exact ⟨(h.1 (by decide)).1, (h.1 (by decide)).2.1⟩

/-- Claim C10: on the provider-failure branch no `add_to_balance` call
is issued, one failed row insert is attempted, and the response is 400
`Service provider API failure` — with the failed-path insert error flag
left free, so the outcome is the same whether that insert succeeds or
errors (it is only logged). -/
theorem C10_provider_failure_no_debit (req : PurchaseRequest) (env : Backend)
    (ah : String) (user : AuthUser) (pd : PackageData) (prof : Profile)
    (hm : req.method ≠ "OPTIONS")
    (hah : req.authHeader = some ah)
    (hu : env.getUser (replaceFirst ah "Bearer ") = some user)
    (hjson : req.jsonOk = true)
    (hpid : falsy req.packageId = false)
    (hsc : falsy req.smartCardNumber = false)
    (href : falsy req.reference = false)
    (hpkg : env.getPackage (getStr req.packageId) = some pd)
    (hprof : env.getProfile user.id = some prof)
    (hbal : pd.amount ≤ prof.balance)
    (hps : env.providerSuccess = false) :
    (handler req env).debits = [] ∧
    (handler req env).resp.status = 400 ∧
    (handler req env).resp.body = RespBody.failureMsg "Service provider API failure" ∧
    (handler req env).attemptedInserts.length = 1 ∧
    ∀ row ∈ (handler req env).attemptedInserts, row.status = "failed" := by
  have hnl : ¬ prof.balance < pd.amount := not_lt.mpr hbal
  simp [handler, hm, hah, hu, hjson, hpid, hsc, href, hpkg, hprof, hnl, hps, jsonResponse]

/-- Witness for C10, with the failed-path insert itself erroring. -/
theorem C10_provider_failure_no_debit_witness :
    (handler demoRequest (demoBackend 10000 false false false true)).debits = [] ∧
    (handler demoRequest (demoBackend 10000 false false false true)).resp.status = 400 ∧
    (handler demoRequest (demoBackend 10000 false false false true)).resp.body =
      RespBody.failureMsg "Service provider API failure" := by
  have h := C10_provider_failure_no_debit demoRequest (demoBackend 10000 false false false true)
    "Bearer tok" demoUser demoPackage { balance := 10000 }
    (by decide) rfl rfl rfl (by decide) (by decide) (by decide) rfl rfl (by decide) rfl
  exact ⟨h.1, h.2.1, h.2.2.1⟩

/-- Claim C8: every response the handler produces — the OPTIONS
preflight, every error response, and the success response — carries
both CORS headers. -/
theorem C8_cors_on_every_response (req : PurchaseRequest) (env : Backend) :
    ("Access-Control-Allow-Origin", "*") ∈ (handler req env).resp.headers ∧
    ("Access-Control-Allow-Headers", "authorization, x-client-info, apikey, content-type")
      ∈ (handler req env).resp.headers := by
  unfold handler
  repeat' split
  all_goals simp [noEffects, jsonResponse, corsHeaders]

/-- Counterexample to C6 as stated: a purchase attempt that passes every
check and debits the balance, but whose transaction insert errors,
appends zero rows — not exactly one — while the handler answers 500. -/
theorem C6_exactly_one_append_counterexample :
    (handler demoRequest (demoBackend 10000 true false true false)).debits ≠ [] ∧
    (handler demoRequest (demoBackend 10000 true false true false)).resp.status = 500 ∧
    ¬ (handler demoRequest (demoBackend 10000 true false true false)).appendedInserts.length
        = 1 := by
  refine ⟨?_, ?_, ?_⟩ <;> decide

/-- The run reached one of the two `transactions.insert` call sites:
every check up to the balance guard passed and, on the provider-success
side, the `add_to_balance` RPC did not error. -/
def reachedRecordingStage (req : PurchaseRequest) (env : Backend) : Prop :=
  ∃ (ah : String) (user : AuthUser) (pd : PackageData) (prof : Profile),
    req.method ≠ "OPTIONS" ∧
    req.authHeader = some ah ∧
    env.getUser (replaceFirst ah "Bearer ") = some user ∧
    req.jsonOk = true ∧
    falsy req.packageId = false ∧
    falsy req.smartCardNumber = false ∧
    falsy req.reference = false ∧
    env.getPackage (getStr req.packageId) = some pd ∧
    env.getProfile user.id = some prof ∧
    pd.amount ≤ prof.balance ∧
    (env.providerSuccess = false ∨ env.addToBalanceError = false)

/-- Shape of the attempted-insert trace: either the run exited before
both insert call sites — zero rows attempted and the recording stage
not reached — or it reached the recording stage and attempted exactly
one row. -/
theorem handler_attempted_shape (req : PurchaseRequest) (env : Backend) :
    ((handler req env).attemptedInserts = [] ∧ ¬ reachedRecordingStage req env) ∨
    (reachedRecordingStage req env ∧ (handler req env).attemptedInserts.length = 1) := by
  by_cases hm : req.method = "OPTIONS"
  · left
    refine ⟨by simp [handler, hm, noEffects], ?_⟩
    rintro ⟨ah, user, pd, prof, hm', -, -, -, -, -, -, -, -, -, -⟩
    exact hm' hm
  · cases hah : req.authHeader with
    | none =>
      left
      refine ⟨by simp [handler, hm, hah, noEffects], ?_⟩
      rintro ⟨ah, user, pd, prof, -, hah', -, -, -, -, -, -, -, -, -⟩
      rw [hah] at hah'
      simp at hah'
    | some ah =>
      cases hu : env.getUser (replaceFirst ah "Bearer ") with
      | none =>
        left
        refine ⟨by simp [handler, hm, hah, hu, noEffects], ?_⟩
        rintro ⟨ah2, user, pd, prof, -, hah', hu', -, -, -, -, -, -, -, -⟩
        rw [hah] at hah'
        injection hah' with h
        rw [← h] at hu'
        rw [hu] at hu'
        simp at hu'
      | some user =>
        by_cases hjson : req.jsonOk = false
        · left
          refine ⟨by simp [handler, hm, hah, hu, hjson, noEffects], ?_⟩
          rintro ⟨ah2, user2, pd, prof, -, -, -, hjson', -, -, -, -, -, -, -⟩
          rw [hjson'] at hjson
          simp at hjson
        · by_cases hbody :
            (falsy req.packageId || falsy req.smartCardNumber || falsy req.reference) = true
          · left
            refine ⟨by simp [handler, hm, hah, hu, hjson, hbody, noEffects], ?_⟩
            rintro ⟨ah2, user2, pd, prof, -, -, -, -, hpid', hsc', href', -, -, -, -⟩
            rw [hpid', hsc', href'] at hbody
            simp at hbody
          · cases hpkg : env.getPackage (getStr req.packageId) with
            | none =>
              left
              refine ⟨by simp [handler, hm, hah, hu, hjson, hbody, hpkg, noEffects], ?_⟩
              rintro ⟨ah2, user2, pd, prof, -, -, -, -, -, -, -, hpkg', -, -, -⟩
              rw [hpkg] at hpkg'
              simp at hpkg'
            | some pd =>
              cases hprof : env.getProfile user.id with
              | none =>
                left
                refine ⟨by simp [handler, hm, hah, hu, hjson, hbody, hpkg, hprof, noEffects],
                  ?_⟩
                rintro ⟨ah2, user2, pd2, prof, -, hah', hu', -, -, -, -, -, hprof', -, -⟩
                rw [hah] at hah'
                injection hah' with h
                rw [← h] at hu'
                rw [hu] at hu'
                injection hu' with h2
                rw [← h2] at hprof'
                rw [hprof] at hprof'
                simp at hprof'
              | some prof =>
                by_cases hbal : prof.balance < pd.amount
                · left
                  refine ⟨by simp [handler, hm, hah, hu, hjson, hbody, hpkg, hprof, hbal,
                    noEffects], ?_⟩
                  rintro ⟨ah2, user2, pd2, prof2, -, hah', hu', -, -, -, -, hpkg', hprof',
                    hbal', -⟩
                  rw [hah] at hah'
                  injection hah' with h
                  rw [← h] at hu'
                  rw [hu] at hu'
                  injection hu' with h2
                  rw [← h2] at hprof'
                  rw [hprof] at hprof'
                  injection hprof' with h3
                  rw [hpkg] at hpkg'
                  injection hpkg' with h4
                  rw [← h3, ← h4] at hbal'
                  exact absurd hbal (not_lt.mpr hbal')
                · obtain ⟨⟨h1, h2⟩, h3⟩ :
                      (falsy req.packageId = false ∧ falsy req.smartCardNumber = false) ∧
                        falsy req.reference = false := by
                    simpa [not_or] using hbody
                  cases hps : env.providerSuccess with
                  | false =>
                    right
                    refine ⟨⟨ah, user, pd, prof, hm, hah, hu, by simpa using hjson,
                      h1, h2, h3, hpkg, hprof, le_of_not_lt hbal, Or.inl hps⟩, ?_⟩
                    simp [handler, hm, hah, hu, hjson, hbody, hpkg, hprof, hbal, hps]
                  | true =>
                    by_cases hrpc : env.addToBalanceError
                    · left
                      refine ⟨by simp [handler, hm, hah, hu, hjson, hbody, hpkg, hprof,
                        hbal, hps, hrpc], ?_⟩
                      rintro ⟨ah2, user2, pd2, prof2, -, -, -, -, -, -, -, -, -, -, hlast⟩
                      rcases hlast with h | h
                      · rw [hps] at h
                        simp at h
                      · rw [h] at hrpc
                        simp at hrpc
                    · right
                      refine ⟨⟨ah, user, pd, prof, hm, hah, hu, by simpa using hjson,
                        h1, h2, h3, hpkg, hprof, le_of_not_lt hbal,
                        Or.inr (by simpa using hrpc)⟩, ?_⟩
                      by_cases hins : env.insertErrorOnSuccessPath
                      · simp [handler, hm, hah, hu, hjson, hbody, hpkg, hprof, hbal, hps,
                          hrpc, hins]
                      · simp [handler, hm, hah, hu, hjson, hbody, hpkg, hprof, hbal, hps,
                          hrpc, hins]

/-- Per-branch facts about the insert traces: at most one row attempted
and appended, status tied to the provider branch, and the appended
trace equal to the attempted trace unless the branch's insert error
flag is set, in which case it is empty. -/
theorem handler_insert_trace_facts (req : PurchaseRequest) (env : Backend) :
    (handler req env).attemptedInserts.length ≤ 1 ∧
    (handler req env).appendedInserts.length ≤ 1 ∧
    (∀ row ∈ (handler req env).attemptedInserts,
      (row.status = "success" ∧ env.providerSuccess = true) ∨
      (row.status = "failed" ∧ env.providerSuccess = false)) ∧
    (handler req env).appendedInserts =
      (if (env.providerSuccess && env.insertErrorOnSuccessPath ||
            !env.providerSuccess && env.insertErrorOnFailedPath) = true
        then [] else (handler req env).attemptedInserts) ∧
    ((handler req env).appendedInserts = (handler req env).attemptedInserts ∨
      (handler req env).appendedInserts = []) ∧
    (handler req env).updatedRows = [] ∧
    (handler req env).deletedRows = [] := by
  by_cases hm : req.method = "OPTIONS"
  · simp [handler, hm, noEffects]
  · cases hah : req.authHeader with
    | none => simp [handler, hm, hah, noEffects]
    | some ah =>
      cases hu : env.getUser (replaceFirst ah "Bearer ") with
      | none => simp [handler, hm, hah, hu, noEffects]
      | some user =>
        by_cases hjson : req.jsonOk = false
        · simp [handler, hm, hah, hu, hjson, noEffects]
        · by_cases hbody :
            (falsy req.packageId || falsy req.smartCardNumber || falsy req.reference) = true
          · simp [handler, hm, hah, hu, hjson, hbody, noEffects]
          · cases hpkg : env.getPackage (getStr req.packageId) with
            | none => simp [handler, hm, hah, hu, hjson, hbody, hpkg, noEffects]
            | some pd =>
              cases hprof : env.getProfile user.id with
              | none => simp [handler, hm, hah, hu, hjson, hbody, hpkg, hprof, noEffects]
              | some prof =>
                by_cases hbal : prof.balance < pd.amount
                · simp [handler, hm, hah, hu, hjson, hbody, hpkg, hprof, hbal, noEffects]
                · cases hps : env.providerSuccess with
                  | false =>
                    by_cases hins : env.insertErrorOnFailedPath
                    · simp [handler, hm, hah, hu, hjson, hbody, hpkg, hprof, hbal, hps, hins]
                    · simp [handler, hm, hah, hu, hjson, hbody, hpkg, hprof, hbal, hps, hins]
                  | true =>
                    by_cases hrpc : env.addToBalanceError
                    · simp [handler, hm, hah, hu, hjson, hbody, hpkg, hprof, hbal, hps, hrpc]
                    · by_cases hins : env.insertErrorOnSuccessPath
                      · simp [handler, hm, hah, hu, hjson, hbody, hpkg, hprof, hbal, hps,
                          hrpc, hins]
                      · simp [handler, hm, hah, hu, hjson, hbody, hpkg, hprof, hbal, hps,
                          hrpc, hins]

/-- Claim C6 (amended): per execution the handler attempts at most one
transaction insert and appends at most one row; exactly one row is
attempted precisely when the run reached a recording call site (the
provider-failure branch, or the provider-success branch with the debit
RPC succeeding) and none on early exits; an attempted row has status
`success` exactly on the provider-success path and `failed` exactly on
the provider-failure path; the appended trace equals the attempted
trace when the branch's insert does not error and is empty when it
does; and the handler never updates or deletes transaction rows. -/
theorem C6_at_most_one_insert_no_mutation (req : PurchaseRequest) (env : Backend) :
    (handler req env).attemptedInserts.length ≤ 1 ∧
    (handler req env).appendedInserts.length ≤ 1 ∧
    ((handler req env).attemptedInserts.length = 1 ↔ reachedRecordingStage req env) ∧
    (∀ row ∈ (handler req env).attemptedInserts,
      (row.status = "success" ∧ env.providerSuccess = true) ∨
      (row.status = "failed" ∧ env.providerSuccess = false)) ∧
    (handler req env).appendedInserts =
      (if (env.providerSuccess && env.insertErrorOnSuccessPath ||
            !env.providerSuccess && env.insertErrorOnFailedPath) = true
        then [] else (handler req env).attemptedInserts) ∧
    ((handler req env).appendedInserts = (handler req env).attemptedInserts ∨
      (handler req env).appendedInserts = []) ∧
    (handler req env).updatedRows = [] ∧
    (handler req env).deletedRows = [] := by
  have h := handler_insert_trace_facts req env
  have hiff :
      (handler req env).attemptedInserts.length = 1 ↔ reachedRecordingStage req env := by
    rcases handler_attempted_shape req env with ⟨hemp, hnr⟩ | ⟨hr, hlen⟩
    · constructor
      · intro hl
        rw [hemp] at hl
        simp at hl
      · intro hr2
        exact absurd hr2 hnr
    · exact ⟨fun _ => hr, fun _ => hlen⟩
  exact ⟨h.1, h.2.1, hiff, h.2.2.1, h.2.2.2.1, h.2.2.2.2.1, h.2.2.2.2.2.1, h.2.2.2.2.2.2⟩

/-- Claim C4: over the provider's context value
(`isAuthenticated: !!user && !!session`), a render of `ProtectedRoute`
shows the loading view while `isLoading`; redirects to `redirectPath`
when not authenticated or the user is null; redirects to
`/unauthorized` when the authenticated user's role is not allowed; and
renders the `Outlet` exactly when authenticated with an allowed role.
The prop defaults are `/login` and `["customer", "admin"]`. -/
theorem C4_protected_route_gating (s : AuthProviderState) (flag : Bool)
    (roles : List String) (path : String) :
    (s.isLoading = true →
      protectedRoute roles path (authContextValue s) flag = .loadingView flag) ∧
    (s.isLoading = false →
      (authContextValue s).isAuthenticated = false ∨ s.user = none →
      protectedRoute roles path (authContextValue s) flag = .navigate path) ∧
    (∀ u : UserView, s.isLoading = false → s.user = some u →
      (authContextValue s).isAuthenticated = true →
      u.role ∉ roles →
      protectedRoute roles path (authContextValue s) flag = .navigate "/unauthorized") ∧
    (protectedRoute roles path (authContextValue s) flag = .outlet ↔
      s.isLoading = false ∧ (authContextValue s).isAuthenticated = true ∧
      ∃ u : UserView, s.user = some u ∧ u.role ∈ roles) ∧
    defaultRedirectPath = "/login" ∧
    defaultAllowedRoles = ["customer", "admin"] := by
  refine ⟨?_, ?_, ?_, ?_, rfl, rfl⟩
  · intro hl
    simp [protectedRoute, authContextValue, hl]
  · intro hl hna
    cases hu : s.user with
    | none => simp [protectedRoute, authContextValue, hl, hu]
    | some u =>
      have hsp : s.sessionPresent = false := by
        rcases hna with hna | hna
        · simpa [authContextValue, hu] using hna
        · rw [hu] at hna; cases hna
      simp [protectedRoute, authContextValue, hl, hu, hsp]
  · intro u hl hu hauth hrole
    have hsp : s.sessionPresent = true := by
      simpa [authContextValue, hu] using hauth
    simp [protectedRoute, authContextValue, hl, hu, hsp, hrole]
  · constructor
    · intro hout
      cases hl : s.isLoading with
      | true => simp [protectedRoute, authContextValue, hl] at hout
      | false =>
        cases hu : s.user with
        | none => simp [protectedRoute, authContextValue, hl, hu] at hout
        | some u =>
          cases hsp : s.sessionPresent with
          | false => simp [protectedRoute, authContextValue, hl, hu, hsp] at hout
          | true =>
            by_cases hrole : u.role ∈ roles
            · exact ⟨rfl, by simp [authContextValue, hu, hsp], u, rfl, hrole⟩
            · simp [protectedRoute, authContextValue, hl, hu, hsp, hrole] at hout
    · rintro ⟨hl, hauth, u, hu, hrole⟩
      have hsp : s.sessionPresent = true := by
        simpa [authContextValue, hu] using hauth
      simp [protectedRoute, authContextValue, hl, hu, hsp, hrole]

def demoAdmin : UserView := { role := "admin" }

def demoAdminState : AuthProviderState :=
  { user := some demoAdmin, sessionPresent := true, isLoading := false }

/-- Witness for C4: an authenticated admin with a session renders the
child routes under the default props. -/
theorem C4_protected_route_gating_witness :
    protectedRoute defaultAllowedRoles defaultRedirectPath
      (authContextValue demoAdminState) false = RenderResult.outlet :=
  (C4_protected_route_gating demoAdminState false defaultAllowedRoles
      defaultRedirectPath).2.2.2.1.mpr
    ⟨rfl, by decide, demoAdmin, rfl, by decide⟩

/-- Claim C7: during a loading episode that began with the flag clear,
after `elapsedMs` of continuous loading the loading view shows the
manual-refresh affordance exactly when the 3000 ms timer has expired;
the expiry runs `timeoutCallback`, which only sets the UI flag — the
in-flight session request and the `refreshAttempted` flag are
untouched — and the flag is reset whenever loading ends. -/
theorem C7_loading_timer_affordance (σ : Type) (s : RouteUiState σ)
    (elapsedMs : Nat) (st : AuthProviderState)
    (hflag : s.loadingTimeExceeded = false)
    (hload : st.isLoading = true) :
    (loadingEffect true elapsedMs s).loadingTimeExceeded =
      decide (loadingTimeoutMs ≤ elapsedMs) ∧
    (loadingEffect true elapsedMs s).sessionRequest = s.sessionRequest ∧
    (loadingEffect true elapsedMs s).refreshAttempted = s.refreshAttempted ∧
    protectedRoute defaultAllowedRoles defaultRedirectPath (authContextValue st)
        ((loadingEffect true elapsedMs s).loadingTimeExceeded) =
      RenderResult.loadingView (decide (loadingTimeoutMs ≤ elapsedMs)) ∧
    ∀ (t : RouteUiState σ) (e : Nat),
      (loadingEffect false e t).loadingTimeExceeded = false := by
  have hfe : (loadingEffect true elapsedMs s).loadingTimeExceeded =
      decide (loadingTimeoutMs ≤ elapsedMs) := by
    by_cases h : loadingTimeoutMs ≤ elapsedMs
    · simp [loadingEffect, timeoutCallback, h]
    · simp [loadingEffect, timeoutCallback, h, hflag]
  refine ⟨hfe, ?_, ?_, ?_, ?_⟩
  · by_cases h : loadingTimeoutMs ≤ elapsedMs <;>
      simp [loadingEffect, timeoutCallback, h]
  · by_cases h : loadingTimeoutMs ≤ elapsedMs <;>
      simp [loadingEffect, timeoutCallback, h]
  · rw [hfe]
    simp [protectedRoute, authContextValue, hload]
  · intro t e
    simp [loadingEffect]

/-- The UI state of a freshly mounted route over an abstract pending
session request, used to instantiate the timer claim. -/
def demoUiState : RouteUiState Nat :=
  { loadingTimeExceeded := false, refreshAttempted := false, sessionRequest := 7 }

def demoLoadingState : AuthProviderState :=
  { user := none, sessionPresent := false, isLoading := true }

/-- Witness for C7 at 3500 ms of continuous loading: the affordance is
shown and the session request is untouched. -/
theorem C7_loading_timer_affordance_witness :
    (loadingEffect true 3500 demoUiState).loadingTimeExceeded =
      decide (loadingTimeoutMs ≤ 3500) ∧
    (loadingEffect true 3500 demoUiState).sessionRequest = demoUiState.sessionRequest ∧
    protectedRoute defaultAllowedRoles defaultRedirectPath
        (authContextValue demoLoadingState)
        ((loadingEffect true 3500 demoUiState).loadingTimeExceeded) =
      RenderResult.loadingView (decide (loadingTimeoutMs ≤ 3500)) := by
  have h := C7_loading_timer_affordance Nat demoUiState 3500 demoLoadingState rfl rfl
  exact ⟨h.1, h.2.1, h.2.2.2.1⟩

/-- The transaction row the handler builds on the demo success path. -/
def demoSuccessRow : TransactionRow :=
  { user_id := "user-1", type := "cable", amount := 9000, status := "success",
    reference := "ref-001", provider := "DSTV", recipient := "1234567890",
    details :=
      { smart_card_number := "1234567890", customer_name := "Unknown Customer",
        provider_name := "DStv", package_name := "Compact",
        duration := some "1 month",
        transaction_date := some "2026-01-01T00:00:00.000Z",
        error := none } }

/-- Witness for the amended C6 on the demo success run: the recording
stage is reached, exactly one row is attempted, and nothing is updated
or deleted. -/
theorem C6_at_most_one_insert_no_mutation_witness :
    (handler demoRequest (demoBackend 10000 true false false false)).attemptedInserts.length
      = 1 ∧
    ((demoSuccessRow.status = "success" ∧
        (demoBackend 10000 true false false false).providerSuccess = true) ∨
      (demoSuccessRow.status = "failed" ∧
        (demoBackend 10000 true false false false).providerSuccess = false)) ∧
    (handler demoRequest (demoBackend 10000 true false false false)).updatedRows = [] ∧
    (handler demoRequest (demoBackend 10000 true false false false)).deletedRows = [] := by
  have h := C6_at_most_one_insert_no_mutation demoRequest
    (demoBackend 10000 true false false false)
  refine ⟨h.2.2.1.mpr ⟨"Bearer tok", demoUser, demoPackage, { balance := 10000 },
      by decide, rfl, rfl, rfl, by decide, by decide, by decide, rfl, rfl, by decide,
      Or.inr rfl⟩,
    h.2.2.2.1 demoSuccessRow (by decide), h.2.2.2.2.2.2.1, h.2.2.2.2.2.2.2⟩
